import Mathlib

/-!
Verification of the Threefry splittable PRNG and the scatter operators of
`python/tvm/topi` against their design description.

The Lean definitions below are a shallow embedding of the code in
`src/python/tvm/topi/generic/algorithm.py` and `src/python/tvm/topi/scatter.py`.
Machine words are natural numbers taken modulo `2 ^ 64` exactly where the
source's `uint64` arithmetic wraps; buffers of words are `List Nat` read with
`List.getD`; the IR-builder programs are rendered as pure functions computing
the contents each program stores into its output buffers.
-/

/-- Modulus of a 64-bit machine word. -/
def M64 : Nat := 2 ^ 64

/-- Source `_ROTATIONS[4]` (algorithm.py line 59): the Threefry rotation
constants for a 4-word block, indexed by round mod 8 and pair. -/
def rotations4 : List (List Nat) :=
  [[14, 16], [52, 57], [23, 40], [5, 37], [25, 33], [46, 12], [58, 22], [32, 32]]

/-- Source `_PERMUTATIONS[4]` (algorithm.py line 85): the word permutation
applied at the end of every round; entry `j` of the new state is entry
`permutations4[j]` of the old state. -/
def permutations4 : List Nat := [0, 3, 2, 1]

/-- Source algorithm.py line 147: the key-schedule constant
`0x1BD11BDAA9FC1A22` stored into `full_key[nwords]`. -/
def skeinKeyConst : Nat := 0x1BD11BDAA9FC1A22

/-- Left rotation of a 64-bit word as computed by the source's
`(b << rotation) | (b >> (iwidth - rotation))` (algorithm.py line 133),
with the left shift wrapping modulo `2 ^ 64`. -/
def rotl64 (b rotation : Nat) : Nat :=
  ((b <<< rotation) % M64) ||| (b >>> (64 - rotation))

/-- Source `mix` (algorithm.py lines 131-134): `x = a + b` wrapping, and
`y = x XOR rotl(b, rotation)`. -/
def mix (a b rotation : Nat) : List Nat :=
  let x := (a + b) % M64
  let y := x ^^^ rotl64 b rotation
  [x, y]

/-- Source algorithm.py lines 143-149: the 5-word extended key; the appended
word is the constant `skeinKeyConst` XORed with all four key words. -/
def full_key (key : List Nat) : List Nat :=
  key ++ [key.foldl (fun a k => a ^^^ k) skeinKeyConst]

/-- Source `key_schedule` (algorithm.py lines 156-160): subkey word `i` of
stage `s`; the last word (`i = 3`) additionally receives `+ s`, wrapping. -/
def key_schedule (key : List Nat) (s i : Nat) : Nat :=
  if i = 4 - 1 then ((full_key key).getD ((s + i) % 5) 0 + s) % M64
  else (full_key key).getD ((s + i) % 5) 0

/-- Key injection of stage `s` (algorithm.py lines 164-165): every word of the
working state receives the corresponding `key_schedule` word, wrapping. -/
def injectKey (key : List Nat) (v : List Nat) (s : Nat) : List Nat :=
  (List.range 4).map (fun j => (v.getD j 0 + key_schedule key s j) % M64)

/-- One Threefry round (algorithm.py lines 166-179): `mix` each adjacent pair
with the rotation constant of this round, then reorder the words with
`permutations4`. -/
def mixPermute (v : List Nat) (round : Nat) : List Nat :=
  let r := rotations4.getD (round % 8) []
  let p0 := mix (v.getD 0 0) (v.getD 1 0) (r.getD 0 0)
  let p1 := mix (v.getD 2 0) (v.getD 3 0) (r.getD 1 0)
  let w := [p0.getD 0 0, p0.getD 1 0, p1.getD 0 0, p1.getD 1 0]
  permutations4.map (fun j => w.getD j 0)

/-- One stage of the cipher (one iteration of the `i` loop at algorithm.py
line 163): a key injection followed by four rounds, the global round index
being `s * 4 + k`. -/
def stage (key : List Nat) (v : List Nat) (s : Nat) : List Nat :=
  (List.range 4).foldl (fun w k => mixPermute w (s * 4 + k)) (injectKey key v s)

/-- Per-block body of source `_threefry` (algorithm.py lines 91-182) for one
block: `nrounds / 4 = 5` stages are applied to the plaintext.  Note the
source performs no key injection after the final round. -/
def threefry_block (key plaintext : List Nat) : List Nat :=
  (List.range 5).foldl (stage key) plaintext

/-- Modelled from the spec: the reference Threefry-4x64-20 cipher that the
design (section 4.1, section 8) requires the block mix to match bit-for-bit.
The published cipher performs a final key injection with stage index
`R / 4 = 5` after the twentieth round, which is exactly what the source's
round loop omits. -/
def threefry_ref (key plaintext : List Nat) : List Nat :=
  injectKey key (threefry_block key plaintext) 5

/-- Modelled from the spec: the published Threefry-4x64-20 known-answer
vector for the all-zero key / all-zero plaintext pair (spec section 8), equal
to `threefry_ref` applied to zeros. -/
def threefry4x64_20_zero_kat : List Nat :=
  [0x09218EBDE6C85537, 0x55941F5266D86105, 0x4BD25E16282434DC, 0xEE29EC846BD2E40B]

/-- Source `_shift_right` (algorithm.py lines 298-309): shift a 128-bit value
held as two 64-bit words right by one; the pair holds the values stored into
`out_a[a_off]` and `out_b[b_off]`. -/
def shift_right (a b : Nat) : Nat × Nat :=
  if a = 1 then (0, 0x8000000000000000)
  else if a = 0 then (0, b >>> 1)
  else (a >>> 1, 0)

/-- Headroom test of `threefry_generate` (algorithm.py line 239):
`gen[7] < 2 ^ 64 - 1 - out_len`, evaluated in `uint64` (no wrap, since the
requested length is at most `2 ^ 64 - 1`). -/
def headroomHolds (gen : List Nat) (n : Nat) : Bool := gen.getD 7 0 < M64 - 1 - n

/-- Rehash branch of `threefry_generate` (algorithm.py lines 244-258): a new
key is derived by hashing the old key with the all-ones sentinel counter, the
path and counter are zeroed and the cursor is reset to the top bit.  The
sentinel buffer `tmp_counter` holds only 2 words while `_threefry` reads 4
plaintext words from it, so the values of plaintext words 2 and 3 are reads
past the end of the allocation; they are taken here as parameters `oob2` and
`oob3`. -/
def threefry_generate_rehash (gen : List Nat) (oob2 oob3 : Nat) : List Nat :=
  let k := threefry_block [gen.getD 0 0, gen.getD 1 0, gen.getD 2 0, gen.getD 3 0]
    [0xFFFFFFFFFFFFFFFF, 0xFFFFFFFFFFFFFFFF, oob2, oob3]
  [k.getD 0 0, k.getD 1 0, k.getD 2 0, k.getD 3 0, 0, 0, 0, 0, 0x8000000000000000, 0]

/-- Path-compression branch of `threefry_generate` (algorithm.py lines
259-268): a one is ORed into the path at the cursor position, the counter is
zeroed and the cursor moves right by one. -/
def threefry_generate_pathCompress (gen : List Nat) : List Nat :=
  [gen.getD 0 0, gen.getD 1 0, gen.getD 2 0, gen.getD 3 0,
   gen.getD 4 0 ||| gen.getD 8 0, gen.getD 5 0 ||| gen.getD 9 0, 0, 0,
   (shift_right (gen.getD 8 0) (gen.getD 9 0)).1,
   (shift_right (gen.getD 8 0) (gen.getD 9 0)).2]

/-- Working state `tmp` of `threefry_generate` (algorithm.py lines 232-268):
the input state when there is counter headroom, otherwise the rehash branch
or the path-compression branch.  The branch test written at line 244 is
`gen[8] == 0 and gen[9] == 0`, but Python `and` applied to the two deferred
`PrimExpr` comparisons returns its first operand (the truth value of a
deferred equality is structural sameness, which is false here), so the
condition the program emits is only `gen[8] == 0`. -/
def threefry_generate_tmp (gen : List Nat) (n oob2 oob3 : Nat) : List Nat :=
  if headroomHolds gen n then gen
  else if gen.getD 8 0 = 0 then threefry_generate_rehash gen oob2 oob3
  else threefry_generate_pathCompress gen

/-- Successor state stored into `out_gen` by `threefry_generate`
(algorithm.py lines 274-282).  The source writes words 0 through 8 only:
word 6 is set to 0, word 7 to `tmp[7] + out_len` wrapping, word 8 to
`tmp[8]`; no statement writes `out_gen[9]`, so word 9 keeps whatever the
freshly produced output buffer already held, taken here as the parameter
`out9`. -/
def threefry_generate_next (gen : List Nat) (n oob2 oob3 out9 : Nat) : List Nat :=
  let tmp := threefry_generate_tmp gen n oob2 oob3
  [tmp.getD 0 0, tmp.getD 1 0, tmp.getD 2 0, tmp.getD 3 0,
   tmp.getD 4 0, tmp.getD 5 0, 0, (tmp.getD 7 0 + n) % M64, tmp.getD 8 0, out9]

/-- Left output of `threefry_split` (algorithm.py lines 344-354 and 369-378):
when the branch test holds the state is rehashed from the current path and
counter (`_threefry(gen, 0, gen, 4, out_left, 0, 1)` reads `gen[4..7]`, all in
bounds) and the cursor resets to the second-from-top bit; otherwise the state
is copied and the cursor moves right by one.  As at line 244, the test
written at line 344 is `gen[8] == 0 and gen[9] == 0`, but Python `and` on the
deferred `PrimExpr` comparisons returns its first operand, so the emitted
condition is only `gen[8] == 0`. -/
def threefry_split_left (gen : List Nat) : List Nat :=
  if gen.getD 8 0 = 0 then
    let k := threefry_block [gen.getD 0 0, gen.getD 1 0, gen.getD 2 0, gen.getD 3 0]
      [gen.getD 4 0, gen.getD 5 0, gen.getD 6 0, gen.getD 7 0]
    [k.getD 0 0, k.getD 1 0, k.getD 2 0, k.getD 3 0, 0, 0, 0, 0, 0x4000000000000000, 0]
  else
    [gen.getD 0 0, gen.getD 1 0, gen.getD 2 0, gen.getD 3 0,
     gen.getD 4 0, gen.getD 5 0, gen.getD 6 0, gen.getD 7 0,
     (shift_right (gen.getD 8 0) (gen.getD 9 0)).1,
     (shift_right (gen.getD 8 0) (gen.getD 9 0)).2]

/-- Right output of `threefry_split` (algorithm.py lines 356-367 and
380-388): when the branch test holds (only `gen[8] == 0` is emitted, as for
`threefry_split_left`) it shares the rehashed key, receives path word
`0x8000000000000000` and the reset cursor; otherwise a one is ORed into the
path at the cursor position and the cursor moves right by one. -/
def threefry_split_right (gen : List Nat) : List Nat :=
  if gen.getD 8 0 = 0 then
    let k := threefry_block [gen.getD 0 0, gen.getD 1 0, gen.getD 2 0, gen.getD 3 0]
      [gen.getD 4 0, gen.getD 5 0, gen.getD 6 0, gen.getD 7 0]
    [k.getD 0 0, k.getD 1 0, k.getD 2 0, k.getD 3 0, 0x8000000000000000, 0, 0, 0, 0x4000000000000000, 0]
  else
    [gen.getD 0 0, gen.getD 1 0, gen.getD 2 0, gen.getD 3 0,
     gen.getD 4 0 ||| gen.getD 8 0, gen.getD 5 0 ||| gen.getD 9 0,
     gen.getD 6 0, gen.getD 7 0,
     (shift_right (gen.getD 8 0) (gen.getD 9 0)).1,
     (shift_right (gen.getD 8 0) (gen.getD 9 0)).2]

/-- Cursor well-formedness of spec section 3: the 128-bit value `hi, lo` has
population count exactly one or zero. -/
def onehotOrZero (hi lo : Nat) : Bool :=
  (hi == 0 && lo == 0) || (List.range 128).any (fun k => hi * 2 ^ 64 + lo == 2 ^ k)

/-- Number of words allocated for the permutation temporary of `_threefry`
(algorithm.py line 137: `irb.allocate(out_buf.dtype, out_shape, ...)`). -/
def threefry_tmp_alloc (out_shape : Nat) : Nat := out_shape

/-- Index into the permutation temporary written by `_threefry`
(algorithm.py line 177: `tmp[tmp_offset + l * nwords + j]` with
`tmp_offset = 0`, `nwords = 4`, `l < out_shape` and `j < 4`). -/
def threefry_tmp_writeIdx (l j : Nat) : Nat := l * 4 + j

/-- Number of words allocated for the sentinel counter of the rehash branch
of `threefry_generate` (algorithm.py line 249: `irb.allocate(gen.dtype, 2,
...)`). -/
def tmp_counter_alloc : Nat := 2

/-- Index into the counter buffer read by `_threefry` (algorithm.py line 154:
`counter_buf[counter_offset + j]` for `j < 4`; the rehash branch passes
`tmp_counter` with `counter_offset = 0`). -/
def threefry_counter_readIdx (j : Nat) : Nat := j

/-- Output offset computed by `scatter_nd`'s inner loop (scatter.py lines
282-296): starting from `index = j` and `offset = fused_data_dimension`, each
`l` from `mdim - 1` down to 0 adds `offset * indices[i + l *
fused_indices_dimension]` and multiplies `offset` by `shape[l]`.  Index
values are signed, so the offset is an integer. -/
def scatterND_index (mdim fusedIdx fusedData : Nat) (shape : List Nat)
    (indices : List Int) (i j : Nat) : Int :=
  ((List.range mdim).reverse.foldl
    (fun acc l => (acc.1 + acc.2 * indices.getD (i + l * fusedIdx) 0,
                   acc.2 * (shape.getD l 0 : Int)))
    ((j : Int), (fusedData : Int))).1

/-- Contents of `scatter_nd`'s output buffer (scatter.py lines 261-297) as a
map from computed offset to stored value: the buffer is zero-filled, then for
`i` below `fused_indices_dimension` and `j` below `fused_data_dimension`, the
statement `out[index] = data[i * fused_data_dimension + j]` stores the data
word at the computed offset; a later iteration that computes the same offset
replaces the earlier value. -/
def scatterND_out (mdim fusedIdx fusedData : Nat) (shape : List Nat)
    (indices data : List Int) : Int → Int :=
  (List.range fusedIdx).foldl
    (fun out i =>
      (List.range fusedData).foldl
        (fun out2 j => fun k =>
          if k = scatterND_index mdim fusedIdx fusedData shape indices i j then
            data.getD (i * fusedData + j) 0
          else out2 k)
        out)
    (fun _ => 0)

/-- Conjunction of every runtime assertion emitted by `scatter_nd`
(scatter.py lines 289-295): inside the `i` and `j` loops, for each `l` below
`mdim`, the assertion requires `indices[i + l * fused_indices_dimension] <
shape[l]` as a signed comparison. -/
def scatterND_assertPass (mdim fusedIdx fusedData : Nat) (shape : List Nat)
    (indices : List Int) : Bool :=
  (List.range fusedIdx).all fun i =>
    (List.range fusedData).all fun _j =>
      (List.range mdim).all fun l =>
        decide (indices.getD (i + l * fusedIdx) 0 < (shape.getD l 0 : Int))

/-- Helper: ORing in a nonzero word that shares no set bit with `a` changes
`a`. -/
theorem lor_ne_self_of_disjoint (a b : Nat) (hb : b ≠ 0) (hab : a &&& b = 0) :
    a ||| b ≠ a := by
  obtain ⟨i, hi⟩ : ∃ i, b.testBit i = true := by
    by_contra hall
    push_neg at hall
    apply hb
    apply Nat.eq_of_testBit_eq
    intro i
    rw [Nat.zero_testBit]
    simpa using hall i
  intro h
  have h2 : a.testBit i = false := by
    have hcongr := congrArg (fun x => Nat.testBit x i) hab
    simpa [Nat.testBit_land, Nat.zero_testBit, hi] using hcongr
  have h1 : (a ||| b).testBit i = true := by
    rw [Nat.testBit_lor, hi, Bool.or_true]
  rw [h, h2] at h1
  exact Bool.noConfusion h1

/-- C1: the claim states that `threefry_generate` carries the cursor of the
working triple into both words 8 and 9 of the successor state.  The code
writes only word 8 (algorithm.py line 282); word 9 of `out_gen` is never
stored, so it keeps the output buffer's prior contents.  Concretely: a state
with cursor `(0, 1)` and counter 0 takes the headroom branch with `n = 4`,
yet the successor's word 9 is the stale buffer word (here 7), not the cursor
word 1. -/
theorem threefry_generate_next_word9_stale :
    headroomHolds [0, 0, 0, 0, 0, 0, 0, 0, 0, 1] 4 = true ∧
    threefry_generate_next [0, 0, 0, 0, 0, 0, 0, 0, 0, 1] 4 0 0 7
      = [0, 0, 0, 0, 0, 0, 0, 4, 0, 7] ∧
    (threefry_generate_next [0, 0, 0, 0, 0, 0, 0, 0, 0, 1] 4 0 0 7).getD 9 0
      ≠ ([0, 0, 0, 0, 0, 0, 0, 0, 0, 1] : List Nat).getD 9 0 := by
  decide

/-- C2: the claim (and the docstring of `scatter_nd`, scatter.py line 218)
states that colliding indices are summed.  The code stores with
`out[index] = data[...]` (scatter.py line 297), so the last write wins.
Concretely with output shape `[2]`, one-word multi-indices `[0, 0]` (both
naming location 0) and data `[1, 2]`: the output holds 2, not the sum 3. -/
theorem scatterND_collision_overwrites :
    scatterND_out 1 2 1 [2] [0, 0] [1, 2] 0 = 2 ∧
    scatterND_out 1 2 1 [2] [0, 0] [1, 2] 0
      ≠ ([1, 2] : List Int).getD 0 0 + ([1, 2] : List Int).getD 1 0 := by
  decide

/-- C3: the claim states that the block mix at the all-zero key and all-zero
plaintext equals the published Threefry-4x64-20 known-answer vector.  The
source's round loop (algorithm.py line 163) performs only `nrounds / 4 = 5`
key injections and none after the final round, so its output differs from
the reference in the last word by the omitted `+ 5` of subkey stage 5:
the code produces `0x...E406` where the reference vector has `0x...E40B`. -/
theorem threefry_block_zero_kat_mismatch :
    threefry_ref [0, 0, 0, 0] [0, 0, 0, 0] = threefry4x64_20_zero_kat ∧
    threefry_block [0, 0, 0, 0] [0, 0, 0, 0]
      = [0x09218EBDE6C85537, 0x55941F5266D86105, 0x4BD25E16282434DC,
         0xEE29EC846BD2E406] ∧
    threefry_block [0, 0, 0, 0] [0, 0, 0, 0] ≠ threefry4x64_20_zero_kat := by
  decide

/-- C8: the claim states that the successor of `threefry_generate` always has
a cursor of population count one or zero.  Because word 9 of `out_gen` is
never written (algorithm.py lines 274-282), the successor cursor's low word
is the stale buffer word: starting from the well-formed cursor
`(0, 1 <<< 63)` with ample counter headroom and a buffer previously holding 3
at word 9, the successor cursor is `(0, 3)`, of population count two. -/
theorem threefry_generate_cursor_popcount_broken :
    onehotOrZero (([0, 0, 0, 0, 0, 0, 0, 0, 0, 1 <<< 63] : List Nat).getD 8 0)
      (([0, 0, 0, 0, 0, 0, 0, 0, 0, 1 <<< 63] : List Nat).getD 9 0) = true ∧
    ([0, 0, 0, 0, 0, 0, 0, 0, 0, 1 <<< 63] : List Nat).getD 7 0 ≠ M64 - 1 ∧
    onehotOrZero
      ((threefry_generate_next [0, 0, 0, 0, 0, 0, 0, 0, 0, 1 <<< 63] 4 0 0 3).getD 8 0)
      ((threefry_generate_next [0, 0, 0, 0, 0, 0, 0, 0, 0, 1 <<< 63] 4 0 0 3).getD 9 0)
      = false := by
  decide

/-- C9: the claim states that every Threefry buffer access is in bounds.  At
block count `out_shape = 1` (the rehash branch's own `_threefry` call), the
permutation temporary holds `threefry_tmp_alloc 1 = 1` word but the round
loop writes index `threefry_tmp_writeIdx 0 3 = 3`, and the 2-word sentinel
counter buffer is read at index 3: both accesses land at or past the end of
their allocations. -/
theorem threefry_buffer_overrun :
    threefry_tmp_alloc 1 ≤ threefry_tmp_writeIdx 0 3 ∧
    tmp_counter_alloc ≤ threefry_counter_readIdx 3 := by
  decide

/-- C4 counterexample: the claim quantifies over states whose cursor is
one-hot or all-zero and whose counter is not the sentinel, with no condition
on the path.  The state with path `(0x4000000000000000, 0)`, counter
`(0, 0)` and one-hot cursor `(0x4000000000000000, 0)` meets that
well-formedness; cursor word 8 is nonzero so the append-bit branch runs, yet
the cursor bit is already set in path word 4, so ORing it in changes nothing
and `threefry_split` returns two bit-identical states. -/
theorem threefry_split_left_eq_right_cex :
    onehotOrZero
      (([0, 0, 0, 0, 0x4000000000000000, 0, 0, 0, 0x4000000000000000, 0]
          : List Nat).getD 8 0)
      (([0, 0, 0, 0, 0x4000000000000000, 0, 0, 0, 0x4000000000000000, 0]
          : List Nat).getD 9 0) = true ∧
    ([0, 0, 0, 0, 0x4000000000000000, 0, 0, 0, 0x4000000000000000, 0]
        : List Nat).getD 7 0 ≠ M64 - 1 ∧
    threefry_split_left
        [0, 0, 0, 0, 0x4000000000000000, 0, 0, 0, 0x4000000000000000, 0]
      = threefry_split_right
        [0, 0, 0, 0, 0x4000000000000000, 0, 0, 0, 0x4000000000000000, 0] := by
  decide

/-- C4 (amended): for every state whose cursor is one-hot or all-zero, whose
counter is not at the sentinel, and whose path has no bit in common with the
cursor (the part of the section-3 invariant stating that the bits at and
below the cursor position are unwritten), the two outputs of `threefry_split`
are bit-distinct. -/
theorem threefry_split_distinct (gen : List Nat)
    (hcur : onehotOrZero (gen.getD 8 0) (gen.getD 9 0) = true)
    (hctr : gen.getD 7 0 ≠ M64 - 1)
    (hp4 : gen.getD 4 0 &&& gen.getD 8 0 = 0)
    (hp5 : gen.getD 5 0 &&& gen.getD 9 0 = 0) :
    threefry_split_left gen ≠ threefry_split_right gen := by
  intro h
  by_cases hz : gen.getD 8 0 = 0
  · have hl : (threefry_split_left gen).getD 4 0 = 0 := by
      rw [threefry_split_left, if_pos hz]; rfl
    have hr : (threefry_split_right gen).getD 4 0 = 0x8000000000000000 := by
      rw [threefry_split_right, if_pos hz]; rfl
    have h4 : (threefry_split_left gen).getD 4 0
        = (threefry_split_right gen).getD 4 0 := by rw [h]
    rw [hl, hr] at h4
    exact absurd h4 (by decide)
  · have hl : (threefry_split_left gen).getD 4 0 = gen.getD 4 0 := by
      rw [threefry_split_left, if_neg hz]; rfl
    have hr : (threefry_split_right gen).getD 4 0
        = gen.getD 4 0 ||| gen.getD 8 0 := by
      rw [threefry_split_right, if_neg hz]; rfl
    have h4 : (threefry_split_left gen).getD 4 0
        = (threefry_split_right gen).getD 4 0 := by rw [h]
    rw [hl, hr] at h4
    exact lor_ne_self_of_disjoint _ _ hz hp4 h4.symm

/-- C4 witness: the amended distinctness theorem applied to the seed-shaped
state with zero path, counter 5 and cursor at the top bit. -/
theorem threefry_split_distinct_witness :
    (onehotOrZero (([1, 2, 3, 4, 0, 0, 0, 5, 1 <<< 63, 0] : List Nat).getD 8 0)
        (([1, 2, 3, 4, 0, 0, 0, 5, 1 <<< 63, 0] : List Nat).getD 9 0) = true ∧
      ([1, 2, 3, 4, 0, 0, 0, 5, 1 <<< 63, 0] : List Nat).getD 7 0 ≠ M64 - 1 ∧
      ([1, 2, 3, 4, 0, 0, 0, 5, 1 <<< 63, 0] : List Nat).getD 4 0
          &&& ([1, 2, 3, 4, 0, 0, 0, 5, 1 <<< 63, 0] : List Nat).getD 8 0 = 0 ∧
      ([1, 2, 3, 4, 0, 0, 0, 5, 1 <<< 63, 0] : List Nat).getD 5 0
          &&& ([1, 2, 3, 4, 0, 0, 0, 5, 1 <<< 63, 0] : List Nat).getD 9 0 = 0) ∧
    threefry_split_left [1, 2, 3, 4, 0, 0, 0, 5, 1 <<< 63, 0]
      ≠ threefry_split_right [1, 2, 3, 4, 0, 0, 0, 5, 1 <<< 63, 0] :=
  ⟨⟨by decide, by decide, by decide, by decide⟩,
    threefry_split_distinct [1, 2, 3, 4, 0, 0, 0, 5, 1 <<< 63, 0]
      (by decide) (by decide) (by decide) (by decide)⟩

/-- C5: whenever the headroom test passes (`gen[7] < 2 ^ 64 - 1 - n`) for a
valid request length `n` (positive multiple of 4, representable in 64 bits),
the successor state of `threefry_generate` has counter word 7 equal to
`gen[7] + n` exactly (no wrap) and counter word 6 equal to 0. -/
theorem threefry_generate_counter_monotone (gen : List Nat)
    (n oob2 oob3 out9 : Nat)
    (hpos : 0 < n) (hmul : n % 4 = 0) (hmax : n ≤ M64 - 1)
    (hroom : gen.getD 7 0 < M64 - 1 - n) :
    (threefry_generate_next gen n oob2 oob3 out9).getD 7 0 = gen.getD 7 0 + n ∧
    (threefry_generate_next gen n oob2 oob3 out9).getD 6 0 = 0 := by
  have hh : headroomHolds gen n = true := by
    simp only [headroomHolds, decide_eq_true_eq]
    exact hroom
  have htmp : threefry_generate_tmp gen n oob2 oob3 = gen := by
    rw [threefry_generate_tmp, hh]
    rfl
  have hM : M64 = 18446744073709551616 := by norm_num [M64]
  have hlt : gen.getD 7 0 + n < M64 := by omega
  constructor
  · simp only [threefry_generate_next, htmp]
    show (gen.getD 7 0 + n) % M64 = gen.getD 7 0 + n
    exact Nat.mod_eq_of_lt hlt
  · simp only [threefry_generate_next, htmp]
    rfl

/-- C5 witness: the counter-monotonicity theorem applied to a state with
counter 10 and cursor at the top bit, requesting 4 words. -/
theorem threefry_generate_counter_monotone_witness :
    ((0 : Nat) < 4 ∧ (4 : Nat) % 4 = 0 ∧ (4 : Nat) ≤ M64 - 1 ∧
      ([9, 8, 7, 6, 0, 0, 0, 10, 1 <<< 63, 0] : List Nat).getD 7 0 < M64 - 1 - 4) ∧
    ((threefry_generate_next [9, 8, 7, 6, 0, 0, 0, 10, 1 <<< 63, 0] 4 11 12 13).getD 7 0
        = ([9, 8, 7, 6, 0, 0, 0, 10, 1 <<< 63, 0] : List Nat).getD 7 0 + 4 ∧
      (threefry_generate_next [9, 8, 7, 6, 0, 0, 0, 10, 1 <<< 63, 0] 4 11 12 13).getD 6 0
        = 0) :=
  ⟨⟨by decide, by decide, by decide, by decide⟩,
    threefry_generate_counter_monotone [9, 8, 7, 6, 0, 0, 0, 10, 1 <<< 63, 0]
      4 11 12 13 (by decide) (by decide) (by decide) (by decide)⟩

/-- C6: at counter word `gen[7] = 2 ^ 64 - 1 - n` with a valid request length
`n`, the headroom test of `threefry_generate` is false, so the
rehash-or-path-compression branch runs; consequently the successor counter is
the freshly reset value `n` rather than an overflow past the sentinel. -/
theorem threefry_generate_exhaustion_rehash (gen : List Nat)
    (n oob2 oob3 out9 : Nat)
    (hpos : 0 < n) (hmul : n % 4 = 0) (hmax : n ≤ M64 - 1)
    (hctr : gen.getD 7 0 = M64 - 1 - n) :
    headroomHolds gen n = false ∧
    (threefry_generate_next gen n oob2 oob3 out9).getD 7 0 = n := by
  have hh : headroomHolds gen n = false := by
    simp only [headroomHolds, hctr]
    exact decide_eq_false (Nat.lt_irrefl _)
  have hM : M64 = 18446744073709551616 := by norm_num [M64]
  have hn' : n < M64 := by omega
  refine ⟨hh, ?_⟩
  by_cases hz : gen.getD 8 0 = 0
  · have htmp : threefry_generate_tmp gen n oob2 oob3
        = threefry_generate_rehash gen oob2 oob3 := by
      rw [threefry_generate_tmp, hh, if_neg (by simp), if_pos hz]
    simp only [threefry_generate_next, htmp]
    show ((threefry_generate_rehash gen oob2 oob3).getD 7 0 + n) % M64 = n
    rw [show (threefry_generate_rehash gen oob2 oob3).getD 7 0 = 0 from rfl,
      Nat.zero_add]
    exact Nat.mod_eq_of_lt hn'
  · have htmp : threefry_generate_tmp gen n oob2 oob3
        = threefry_generate_pathCompress gen := by
      rw [threefry_generate_tmp, hh, if_neg (by simp), if_neg hz]
    simp only [threefry_generate_next, htmp]
    show ((threefry_generate_pathCompress gen).getD 7 0 + n) % M64 = n
    rw [show (threefry_generate_pathCompress gen).getD 7 0 = 0 from rfl,
      Nat.zero_add]
    exact Nat.mod_eq_of_lt hn'

/-- C6 witness: the exhaustion theorem applied to a state sitting exactly at
`2 ^ 64 - 1 - 4` with a non-exhausted cursor, requesting 4 words. -/
theorem threefry_generate_exhaustion_rehash_witness :
    ((0 : Nat) < 4 ∧ (4 : Nat) % 4 = 0 ∧ (4 : Nat) ≤ M64 - 1 ∧
      ([0, 0, 0, 0, 0, 0, 0, M64 - 1 - 4, 1 <<< 63, 0] : List Nat).getD 7 0
        = M64 - 1 - 4) ∧
    (headroomHolds [0, 0, 0, 0, 0, 0, 0, M64 - 1 - 4, 1 <<< 63, 0] 4 = false ∧
      (threefry_generate_next [0, 0, 0, 0, 0, 0, 0, M64 - 1 - 4, 1 <<< 63, 0]
          4 0 0 0).getD 7 0 = 4) :=
  ⟨⟨by decide, by decide, by decide, by decide⟩,
    threefry_generate_exhaustion_rehash [0, 0, 0, 0, 0, 0, 0, M64 - 1 - 4, 1 <<< 63, 0]
      4 0 0 0 (by decide) (by decide) (by decide) (by decide)⟩

/-- C7: on a one-hot 128-bit cursor held as two 64-bit words, `_shift_right`
returns `(0, 0x8000000000000000)` when `hi = 1`, `(0, lo >> 1)` when
`hi = 0`, and `(hi >> 1, 0)` otherwise; equivalently, the one-hot 128-bit
value is divided by two. -/
theorem shift_right_onehot_cases (hi lo : Nat) (hlo : lo < 2 ^ 64)
    (h : ∃ k, k < 128 ∧ hi * 2 ^ 64 + lo = 2 ^ k) :
    shift_right hi lo
      = (if hi = 1 then (0, 0x8000000000000000)
         else if hi = 0 then (0, lo / 2) else (hi / 2, 0)) ∧
    (shift_right hi lo).1 * 2 ^ 64 + (shift_right hi lo).2
      = (hi * 2 ^ 64 + lo) / 2 := by
  have hsr : ∀ m : Nat, m >>> 1 = m / 2 := fun m => by
    rw [Nat.shiftRight_eq_div_pow, pow_one]
  obtain ⟨k, hk, heq⟩ := h
  constructor
  · by_cases h1 : hi = 1
    · simp [shift_right, h1]
    · by_cases h0 : hi = 0
      · simp [shift_right, h0, h1, hsr]
      · simp [shift_right, h0, h1, hsr]
  · by_cases h0 : hi = 0
    · subst h0
      simp [shift_right, hsr]
    · have hpos : 1 ≤ hi := Nat.one_le_iff_ne_zero.mpr h0
      have h64 : 64 ≤ k := by
        by_contra hlt
        push_neg at hlt
        have hklt : (2 : Nat) ^ k < 2 ^ 64 := Nat.pow_lt_pow_right (by norm_num) hlt
        have hge : (2 : Nat) ^ 64 ≤ hi * 2 ^ 64 := Nat.le_mul_of_pos_left _ hpos
        linarith [heq, hklt, hge]
      have hsplit : (2 : Nat) ^ k = 2 ^ (k - 64) * 2 ^ 64 := by
        rw [← pow_add]
        congr 1
        omega
      rw [hsplit] at heq
      have hlo0 : lo = 0 := by
        have h1 : (2 : Nat) ^ 64 ∣ hi * 2 ^ 64 + lo := by
          rw [heq]
          exact dvd_mul_left _ _
        have h2 : (2 : Nat) ^ 64 ∣ hi * 2 ^ 64 := dvd_mul_left _ _
        exact Nat.eq_zero_of_dvd_of_lt ((Nat.dvd_add_right h2).mp h1) hlo
      subst hlo0
      have hieq : hi = 2 ^ (k - 64) := by
        rw [Nat.add_zero] at heq
        exact Nat.eq_of_mul_eq_mul_right (by positivity) heq
      by_cases hk64 : k = 64
      · have h1 : hi = 1 := by
          rw [hieq, hk64]
          norm_num
        simp [shift_right, h1]
      · obtain ⟨m1, hm1⟩ : ∃ m1, k - 64 = m1 + 1 := ⟨k - 65, by omega⟩
        have h1 : hi ≠ 1 := by
          rw [hieq, hm1]
          have : 1 < 2 ^ (m1 + 1) := Nat.one_lt_two_pow_iff.mpr (by omega)
          omega
        simp only [shift_right, if_neg h1, if_neg h0]
        rw [hsr, hieq, hm1, pow_succ]
        have e1 : 2 ^ m1 * 2 / 2 = 2 ^ m1 := Nat.mul_div_cancel _ (by norm_num)
        have e2 : 2 ^ m1 * 2 * 2 ^ 64 + 0 = 2 ^ m1 * 2 ^ 64 * 2 := by ring
        rw [e1, e2, Nat.mul_div_cancel _ (by norm_num), Nat.add_zero]

/-- C7 witness: the case description applied to the concrete one-hot cursor
`(0, 4)`, whose single bit is at position 2. -/
theorem shift_right_onehot_cases_witness :
    ((4 : Nat) < 2 ^ 64 ∧ ∃ k, k < 128 ∧ 0 * 2 ^ 64 + 4 = 2 ^ k) ∧
    (shift_right 0 4
        = (if (0 : Nat) = 1 then (0, 0x8000000000000000)
           else if (0 : Nat) = 0 then (0, 4 / 2) else (0 / 2, 0)) ∧
      (shift_right 0 4).1 * 2 ^ 64 + (shift_right 0 4).2
        = (0 * 2 ^ 64 + 4) / 2) :=
  ⟨⟨by decide, ⟨2, by decide⟩⟩,
    shift_right_onehot_cases 0 4 (by decide) ⟨2, by decide⟩⟩

/-- C10: provided the data loop executes (`fused_data_dimension` positive),
the runtime assertion of `scatter_nd` fails exactly when some index value is
at least the corresponding output extent `shape[l]`; in particular an input
whose index values are all strictly below their extents passes, and a
negative index value never triggers the assertion (only the upper bound is
checked, so such a write lands at a negative computed offset). -/
theorem scatterND_assert_iff_oob (mdim fusedIdx fusedData : Nat)
    (shape : List Nat) (indices : List Int) (hfd : 0 < fusedData) :
    scatterND_assertPass mdim fusedIdx fusedData shape indices = false
      ↔ ∃ i, i < fusedIdx ∧ ∃ l, l < mdim ∧
          (shape.getD l 0 : Int) ≤ indices.getD (i + l * fusedIdx) 0 := by
  have hiff : scatterND_assertPass mdim fusedIdx fusedData shape indices = true
      ↔ ∀ i, i < fusedIdx → ∀ l, l < mdim →
          indices.getD (i + l * fusedIdx) 0 < (shape.getD l 0 : Int) := by
    rw [scatterND_assertPass]
    simp only [List.all_eq_true, List.mem_range, decide_eq_true_eq]
    constructor
    · intro hall i hi l hl
      exact hall i hi 0 hfd l hl
    · intro hall i hi _j _hj l hl
      exact hall i hi l hl
  rw [← Bool.not_eq_true, hiff]
  push_neg
  rfl

/-- C10 witness: the assertion equivalence applied to output shape `[2]` and
the single out-of-range index value 5. -/
theorem scatterND_assert_iff_oob_witness :
    (0 : Nat) < 1 ∧
    (scatterND_assertPass 1 1 1 [2] [5] = false
      ↔ ∃ i, i < 1 ∧ ∃ l, l < 1 ∧
          (([2] : List Nat).getD l 0 : Int) ≤ ([5] : List Int).getD (i + l * 1) 0) :=
  ⟨by decide, scatterND_assert_iff_oob 1 1 1 [2] [5] (by decide)⟩
